import Mathlib

/-!
Shallow embedding of `src/pillar/vault.py` (salt-pillar-vault): a Salt
external-pillar module that resolves secret references against a Vault
secret store.

The embedding models Python values with the inductive `PyVal` (only the
shapes the module manipulates: `None`, booleans, strings, and dicts as
association lists).  Fallible Python operations (`x["data"]`, `.get`,
`.startswith` on a non-string) are translated to `Except String`, whose
error payload names the Python exception class that the corresponding
operation raises.  The Vault connection is modelled as a pure function
`read : String -> PyVal` giving, for each path, the structure `conn.read`
returns (`PyVal.none` for a missing secret, matching hvac returning
`None` on a 404).  `couple` also returns the list of paths read, in
order, so that "issues one read" claims are statable.
-/

namespace SaltPillarVault

/-- Python values as manipulated by vault.py: `None`, `bool`, `str`
(py2 `basestring`, which also covers the byte strings returned by
`base64.b64decode`) and `dict` (association list in insertion order). -/
inductive PyVal where
  | none
  | bool (b : Bool)
  | str (s : String)
  | dict (entries : List (String × PyVal))
deriving Repr

/-- Python truthiness for the modelled values: `None` and `False` are
falsy, a string is truthy iff non-empty, a dict iff non-empty. -/
def truthy : PyVal → Bool
  | .none => false
  | .bool b => b
  | .str s => s ≠ ""
  | .dict entries => !entries.isEmpty

/-- First-match lookup in an association list (Python dict lookup; keys
are unique in a Python dict so first-match is exact). -/
def dictGet : List (String × PyVal) → String → Option PyVal
  | [], _ => Option.none
  | (k, v) :: rest, key => if k = key then Option.some v else dictGet rest key

/-- Python subscript `x[key]` with a string key: on a dict it is lookup
(raising `KeyError` when absent); on `None`, a bool or a string it raises
`TypeError` (e.g. the NoneType object is not subscriptable). -/
def pySubscript (v : PyVal) (key : String) : Except String PyVal :=
  match v with
  | .dict entries =>
    match dictGet entries key with
    | Option.some w => .ok w
    | Option.none => .error "KeyError"
  | _ => .error "TypeError: object is not subscriptable"

/-- Python `x.get(key, None)`: defined on dicts only; any other value has
no `get` attribute and raises `AttributeError`. -/
def pyGetDefaultNone (v : PyVal) (key : String) : Except String PyVal :=
  match v with
  | .dict entries => .ok ((dictGet entries key).getD PyVal.none)
  | _ => .error "AttributeError: object has no attribute get"

/-- Split a character list at the first occurrence of the question-mark
character, returning the part before it and, when present, the part
after it. -/
def splitFirstQ : List Char → List Char × Option (List Char)
  | [] => ([], Option.none)
  | c :: cs =>
    if c = '?' then ([], Option.some cs)
    else
      let r := splitFirstQ cs
      (c :: r.1, r.2)

/-- Model of `location.split('?', 1)` wrapped in the try/except
ValueError of vault.py: a string with no question mark yields
`(location, None)` (the two-element unpack fails and the handler fires);
otherwise the part before the first question mark and everything after
it. -/
def pySplitRef (s : String) : String × Option String :=
  match splitFirstQ s.toList with
  | (a, Option.none) => (String.mk a, Option.none)
  | (a, Option.some b) => (String.mk a, Option.some (String.mk b))

/-- Character-list core of `pyStartswith`. -/
def startsWithChars : List Char → List Char → Bool
  | _, [] => true
  | [], _ :: _ => false
  | c :: cs, p :: ps => c = p && startsWithChars cs ps

/-- Model of Python `s.startswith(pat)` on strings. -/
def pyStartswith (s pat : String) : Bool :=
  startsWithChars s.toList pat.toList

/-- Model of the Python slice `s[n:]`. -/
def pyDropChars (s : String) (n : Nat) : String :=
  String.mk (s.toList.drop n)

/-- The whitespace characters stripped by the Python `str.rstrip()`:
space, tab, newline, carriage return, vertical tab, form feed. -/
def isPyWs (c : Char) : Bool :=
  c = ' ' || c = '\t' || c = '\n' || c = '\r' || c = Char.ofNat 11 || c = Char.ofNat 12

/-- Model of Python `s.rstrip()`: remove trailing whitespace. -/
def pyRstrip (s : String) : String :=
  String.mk ((s.toList.reverse.dropWhile isPyWs).reverse)

/-- Value of a character in the standard base64 alphabet, if any. -/
def b64val (c : Char) : Option Nat :=
  if 'A' ≤ c ∧ c ≤ 'Z' then Option.some (c.toNat - 65)
  else if 'a' ≤ c ∧ c ≤ 'z' then Option.some (c.toNat - 97 + 26)
  else if '0' ≤ c ∧ c ≤ '9' then Option.some (c.toNat - 48 + 52)
  else if c = '+' then Option.some 62
  else if c = '/' then Option.some 63
  else Option.none

/-- Decode one four-character base64 group into one to three bytes
(bytes are py2 `str` characters); equals-sign padding shortens the
group. -/
def b64group (c1 c2 c3 c4 : Char) : Except String (List Char) :=
  match b64val c1, b64val c2 with
  | Option.some v1, Option.some v2 =>
    let b1 := Char.ofNat (v1 * 4 + v2 / 16)
    if c3 = '=' then
      if c4 = '=' then .ok [b1] else .error "TypeError: Incorrect padding"
    else
      match b64val c3 with
      | Option.some v3 =>
        let b2 := Char.ofNat ((v2 % 16) * 16 + v3 / 4)
        if c4 = '=' then .ok [b1, b2]
        else
          match b64val c4 with
          | Option.some v4 => .ok [b1, b2, Char.ofNat ((v3 % 4) * 64 + v4)]
          | Option.none => .error "TypeError: Incorrect padding"
      | Option.none => .error "TypeError: Incorrect padding"
  | _, _ => .error "TypeError: Incorrect padding"

/-- Decode a base64 character list, four characters at a time; input not
a multiple of four characters raises `TypeError: Incorrect padding`
(padding groups are only legal at the end). -/
def b64decodeList : List Char → Except String (List Char)
  | [] => .ok []
  | c1 :: c2 :: c3 :: c4 :: rest =>
    match b64group c1 c2 c3 c4 with
    | .error e => .error e
    | .ok bs =>
      if (c3 = '=' || c4 = '=') && rest ≠ [] then
        .error "TypeError: Incorrect padding"
      else
        match b64decodeList rest with
        | .error e => .error e
        | .ok bs2 => .ok (bs ++ bs2)
  | _ => .error "TypeError: Incorrect padding"

/-- Model of `base64.b64decode` on canonical input (the stdlib call made
by vault.py; in py2 the result is a `str` of bytes). -/
def b64decode (s : String) : Except String String :=
  (b64decodeList s.toList).map String.mk

mutual

/-- Translation of `couple(location, conn)` from vault.py, with the
Vault connection as `read`, the `unset_if_missing` flag of the process
configuration as `u`, and the ordered list of Vault paths read returned
alongside the result.  A `.error` result is a Python exception escaping
`couple`. -/
def couple (location : PyVal) (read : String → PyVal) (u : Bool) :
    Except String PyVal × List String :=
  match location with
  | .str loc =>
    let pk := pySplitRef loc
    let secret0 := read pk.1
    let step : Except String PyVal :=
      match pk.2 with
      | Option.some k =>
        if k ≠ "" then
          match pySubscript secret0 "data" with
          | .error e => .error e
          | .ok dataVal =>
            match pyGetDefaultNone dataVal k with
            | .error e => .error e
            | .ok s1 =>
              if truthy s1 then
                match s1 with
                | .str s =>
                  if pyStartswith s "base64:" then
                    match b64decode (pyDropChars s 7) with
                    | .error e => .error e
                    | .ok dec => .ok (.str (pyRstrip dec))
                  else .ok (.str s)
                | _ => .error "AttributeError: object has no attribute startswith"
              else .ok s1
        else .ok secret0
      | Option.none => .ok secret0
    match step with
    | .error e => (.error e, [pk.1])
    | .ok secret =>
      if truthy secret || !u then (.ok secret, [pk.1])
      else (.ok .none, [pk.1])
  | .dict entries =>
    match coupleEntries entries read u with
    | (.error e, tr) => (.error e, tr)
    | (.ok coupled, tr) =>
      if !coupled.isEmpty || !u then (.ok (.dict coupled), tr)
      else (.ok .none, tr)
  | _ =>
    if !u then (.ok (.dict []), []) else (.ok .none, [])

/-- The `for return_key, real_location in location.items()` loop of
`couple`: the key of each entry is assigned unconditionally; an
exception in a recursive call propagates immediately. -/
def coupleEntries (entries : List (String × PyVal)) (read : String → PyVal)
    (u : Bool) : Except String (List (String × PyVal)) × List String :=
  match entries with
  | [] => (.ok [], [])
  | (k, loc) :: rest =>
    match couple loc read u with
    | (.error e, tr) => (.error e, tr)
    | (.ok v, tr) =>
      match coupleEntries rest read u with
      | (.error e, tr2) => (.error e, tr ++ tr2)
      | (.ok coupled, tr2) => (.ok ((k, v) :: coupled), tr ++ tr2)

end

/-- The inner loop of `ext_pillar` assembling the pillar fragment for a
matched filter: for each `(variable, location)` of the secret map,
resolve with `couple` and set `vault_pillar[variable]` only when the
returned data is truthy. -/
def pillarFragment (secrets : List (String × PyVal)) (read : String → PyVal)
    (u : Bool) : Except String (List (String × PyVal)) :=
  match secrets with
  | [] => .ok []
  | (v, loc) :: rest =>
    match (couple loc read u).1 with
    | .error e => .error e
    | .ok returnData =>
      match pillarFragment rest read u with
      | .error e => .error e
      | .ok frag =>
        .ok (if truthy returnData then (v, returnData) :: frag else frag)

/-- The module-level `CONF` dictionary: its ten settings, each holding a
`PyVal`.  The key set never changes (`ext_pillar` only assigns to
existing keys), so a structure with one field per setting is exact. -/
structure Conf where
  url : PyVal
  config : PyVal
  token : PyVal
  app_id : PyVal
  user_id : PyVal
  user_file : PyVal
  role_id : PyVal
  secret_id : PyVal
  secret_file : PyVal
  unset_if_missing : PyVal
deriving Repr

/-- The default config values with which `CONF` is initialised at module
load. -/
def defaultConf : Conf :=
  { url := .str "https://vault:8200"
    config := .str "/srv/salt/secrets.yml"
    token := .none
    app_id := .none
    user_id := .none
    user_file := .none
    role_id := .none
    secret_id := .none
    secret_file := .none
    unset_if_missing := .bool false }

/-- The configuration-merge loop at the top of `ext_pillar`:
`for key in CONF: if kwargs.get(key, None): CONF[key] = kwargs.get(key)`.
`kwargs` is modelled as a total function returning `PyVal.none` for
absent keywords, matching `kwargs.get(key, None)`; a setting is replaced
exactly when the looked-up value is truthy.  `CONF` is mutated in place,
so the input is the process-wide record left by the previous invocation. -/
def mergeConf (c : Conf) (kwargs : String → PyVal) : Conf :=
  { url := if truthy (kwargs "url") then kwargs "url" else c.url
    config := if truthy (kwargs "config") then kwargs "config" else c.config
    token := if truthy (kwargs "token") then kwargs "token" else c.token
    app_id := if truthy (kwargs "app_id") then kwargs "app_id" else c.app_id
    user_id := if truthy (kwargs "user_id") then kwargs "user_id" else c.user_id
    user_file := if truthy (kwargs "user_file") then kwargs "user_file" else c.user_file
    role_id := if truthy (kwargs "role_id") then kwargs "role_id" else c.role_id
    secret_id := if truthy (kwargs "secret_id") then kwargs "secret_id" else c.secret_id
    secret_file := if truthy (kwargs "secret_file") then kwargs "secret_file" else c.secret_file
    unset_if_missing :=
      if truthy (kwargs "unset_if_missing") then kwargs "unset_if_missing"
      else c.unset_if_missing }

/-- The process-wide `CONF` after a sequence of `ext_pillar` invocations
with the given keyword arguments: module defaults folded through the
in-place merge of each invocation (the separate in-place rewrite of
`config` for salt:// URLs is orthogonal to the settings studied here). -/
def confAfter (invocations : List (String → PyVal)) : Conf :=
  invocations.foldl mergeConf defaultConf

/-- Dictionary view of the `Conf` record: `confGet c key` is
`CONF[key]`, or `Option.none` when `key` is not one of the ten settings
of the `CONF` literal. -/
def confGet (c : Conf) (key : String) : Option PyVal :=
  match key with
  | "url" => Option.some c.url
  | "config" => Option.some c.config
  | "token" => Option.some c.token
  | "app_id" => Option.some c.app_id
  | "user_id" => Option.some c.user_id
  | "user_file" => Option.some c.user_file
  | "role_id" => Option.some c.role_id
  | "secret_id" => Option.some c.secret_id
  | "secret_file" => Option.some c.secret_file
  | "unset_if_missing" => Option.some c.unset_if_missing
  | _ => Option.none

/-- The most recent truthy caller override for setting `key` in a
sequence of invocations, if any. -/
def lastTruthyOverride (invocations : List (String → PyVal)) (key : String) :
    Option PyVal :=
  (invocations.reverse.map (fun kwargs => kwargs key)).find? truthy

/-- The `if not CONF["url"]` guard of `ext_pillar` that logs the
url-must-be-specified error and returns the empty fragment. -/
def urlMissingBranch (c : Conf) : Bool :=
  !truthy c.url

/-- Translation of `_get_id_from_file(source)`: read the file when it
exists (the filesystem is `fs`, `Option.none` meaning no such file),
default to the empty string otherwise, and strip trailing whitespace.
The `os.path.abspath(os.path.expanduser(...))` normalisation is modelled
as the identity on the already-absolute paths vault.py passes. -/
def getIdFromFile (fs : String → Option String) (source : String := "/.vault-id") :
    String :=
  pyRstrip ((fs source).getD "")

/-- A config value used where Python expects a path string (`user_file`,
`secret_file`); the branches taking it are guarded by truthiness, and a
truthy non-string there would raise inside `os.path`, which no claim
exercises. -/
def asPathString : PyVal → String
  | .str s => s
  | _ => ""

/-- The externally visible effect of `_authenticate(conn)`: which
credential strategy ran and with which credentials. -/
inductive AuthAction where
  | setToken (t : PyVal)
  | approle (roleId : PyVal) (secretId : PyVal)
  | appId (appId : PyVal) (userId : PyVal)
  | envToken (t : String)
  | nothing
deriving Repr

/-- Translation of `_authenticate(conn)`: the if/elif chain selecting
the credential strategy from `CONF`, the filesystem `fs` (for
`_get_id_from_file`) and the process environment `env` (for
`os.environ.get("VAULT_TOKEN")`, which is falsy when unset or empty). -/
def authenticate (c : Conf) (fs : String → Option String)
    (env : String → Option String) : AuthAction :=
  if truthy c.token then
    .setToken c.token
  else if truthy c.role_id then
    let secretId : PyVal :=
      if truthy c.secret_id then c.secret_id
      else if truthy c.secret_file then .str (getIdFromFile fs (asPathString c.secret_file))
      else .str (getIdFromFile fs)
    .approle c.role_id secretId
  else if truthy c.app_id then
    let userId : PyVal :=
      if truthy c.user_id then c.user_id
      else if truthy c.user_file then .str (getIdFromFile fs (asPathString c.user_file))
      else .str (getIdFromFile fs)
    .appId c.app_id userId
  else
    match env "VAULT_TOKEN" with
    | Option.some t => if t ≠ "" then .envToken t else .nothing
    | Option.none => .nothing

/-- A sample Vault store: one secret at path `p` whose `data` dict has
the single key `other`, so the key `k` is absent from its data. -/
def sampleStore : String → PyVal := fun path =>
  if path = "p" then .dict [("data", .dict [("other", .str "x")])] else .none

/-! ## Helper lemmas -/

theorem splitFirstQ_not_mem (l : List Char) (h : '?' ∉ l) :
    splitFirstQ l = (l, Option.none) := by
  induction l with
  | nil => rfl
  | cons c cs ih =>
    have hc : ¬ c = '?' := fun hceq => h (hceq ▸ List.mem_cons_self c cs)
    have hcs : '?' ∉ cs := fun hm => h (List.mem_cons_of_mem c hm)
    simp [splitFirstQ, hc, ih hcs]

theorem splitFirstQ_append (l m : List Char) (h : '?' ∉ l) :
    splitFirstQ (l ++ '?' :: m) = (l, Option.some m) := by
  induction l with
  | nil => simp [splitFirstQ]
  | cons c cs ih =>
    have hc : ¬ c = '?' := fun hceq => h (hceq ▸ List.mem_cons_self c cs)
    have hcs : '?' ∉ cs := fun hm => h (List.mem_cons_of_mem c hm)
    simp [splitFirstQ, hc, ih hcs]

theorem pySplitRef_noQ (p : String) (hp : '?' ∉ p.toList) :
    pySplitRef p = (p, Option.none) := by
  unfold pySplitRef
  rw [splitFirstQ_not_mem _ hp]
  rfl

theorem pySplitRef_append (p k : String) (hp : '?' ∉ p.toList) :
    pySplitRef (p ++ "?" ++ k) = (p, Option.some k) := by
  unfold pySplitRef
  have h1 : (p ++ "?" ++ k).toList = p.toList ++ '?' :: k.toList := by
    have e1 : (p ++ "?" ++ k).toList = (p.toList ++ ['?']) ++ k.toList := rfl
    rw [e1, List.append_assoc]
    rfl
  rw [h1, splitFirstQ_append _ _ hp]
  rfl

theorem pySplitRef_emptyKey (p : String) (hp : '?' ∉ p.toList) :
    pySplitRef (p ++ "?") = (p, Option.some "") := by
  unfold pySplitRef
  have h1 : (p ++ "?").toList = p.toList ++ '?' :: ([] : List Char) := rfl
  rw [h1, splitFirstQ_append _ _ hp]
  rfl

theorem couple_str_of_split_none (read : String → PyVal) (u : Bool)
    (loc p : String) (h : pySplitRef loc = (p, Option.none)) :
    couple (.str loc) read u =
      (if truthy (read p) || !u then (.ok (read p), [p])
       else (.ok PyVal.none, [p])) := by
  simp only [couple, h]

theorem couple_str_of_split_emptyKey (read : String → PyVal) (u : Bool)
    (loc p : String) (h : pySplitRef loc = (p, Option.some "")) :
    couple (.str loc) read u =
      (if truthy (read p) || !u then (.ok (read p), [p])
       else (.ok PyVal.none, [p])) := by
  simp only [couple, h]
  split <;> simp_all

theorem confGet_mergeConf (c : Conf) (kwargs : String → PyVal) (key : String) :
    confGet (mergeConf c kwargs) key =
      (confGet c key).map
        (fun cur => if truthy (kwargs key) then kwargs key else cur) := by
  unfold confGet
  split <;> simp_all [mergeConf]

theorem confAfter_append_singleton (invocations : List (String → PyVal))
    (kwargs : String → PyVal) :
    confAfter (invocations ++ [kwargs]) = mergeConf (confAfter invocations) kwargs := by
  simp [confAfter, List.foldl_append]

theorem lastTruthyOverride_append_singleton (invocations : List (String → PyVal))
    (kwargs : String → PyVal) (key : String) :
    lastTruthyOverride (invocations ++ [kwargs]) key =
      (if truthy (kwargs key) then Option.some (kwargs key)
       else lastTruthyOverride invocations key) := by
  unfold lastTruthyOverride
  rw [List.reverse_append]
  simp only [List.reverse_cons, List.reverse_nil, List.nil_append,
    List.cons_append, List.map_cons, List.find?]
  split <;> simp_all

/-! ## Claims -/

/-- Claim C5: in the configuration merge performed by `ext_pillar`, a
caller-supplied keyword override replaces the current value of a setting
if and only if the override is truthy; every falsy override (False,
empty string, None, 0) is silently ignored and leaves the setting
unchanged. -/
theorem ext_pillar_merge_replaces_iff_truthy (c : Conf)
    (kwargs : String → PyVal) (key : String) :
    confGet (mergeConf c kwargs) key =
      (confGet c key).map
        (fun cur => if truthy (kwargs key) then kwargs key else cur) :=
  confGet_mergeConf c kwargs key

/-- Claim C4, counterexample: after a first invocation overriding
`token` with a truthy value, a second invocation supplying no overrides
at all still sees `token` equal to the first override, not its default
`None`: `CONF` is mutated in place and is not re-derived from the
defaults on each invocation. -/
theorem conf_not_reset_counterexample :
    confGet (confAfter
        [fun key => if key = "token" then PyVal.str "tok1" else PyVal.none,
         fun _ => PyVal.none]) "token" = Option.some (PyVal.str "tok1")
    ∧ confGet defaultConf "token" = Option.some PyVal.none
    ∧ PyVal.str "tok1" ≠ PyVal.none :=
  ⟨rfl, rfl, fun h => PyVal.noConfusion h⟩

/-- Claim C4 (amended): the configuration record is process-wide and
mutated in place; after any sequence of invocations, each setting equals
the most recent truthy caller override supplied for it across the whole
sequence, or its default value if no invocation ever supplied a truthy
override for it.  Only on the first invocation (or for never-overridden
settings) does an un-overridden setting equal its default. -/
theorem conf_setting_is_last_truthy_override
    (invocations : List (String → PyVal)) (key : String) :
    confGet (confAfter invocations) key =
      (confGet defaultConf key).map
        (fun d => (lastTruthyOverride invocations key).getD d) := by
  induction invocations using List.reverseRecOn with
  | nil =>
      cases hd : confGet defaultConf key <;>
        simp_all [confAfter, lastTruthyOverride]
  | append_singleton invs kwargs ih =>
      rw [confAfter_append_singleton, confGet_mergeConf, ih,
          lastTruthyOverride_append_singleton]
      cases hd : confGet defaultConf key <;>
        by_cases ht : truthy (kwargs key) <;> simp [ht]

/-- Claim C9: the missing-endpoint-URL error branch of `ext_pillar` is
unreachable: the default `url` is truthy and the merge only replaces a
setting with a truthy override, so after any sequence of invocations the
`url` setting is truthy and the guard that logs the missing-url error
never fires. -/
theorem url_missing_branch_unreachable :
    truthy defaultConf.url = true ∧
      ∀ invocations, urlMissingBranch (confAfter invocations) = false := by
  refine ⟨rfl, ?_⟩
  intro invocations
  induction invocations using List.reverseRecOn with
  | nil => rfl
  | append_singleton invs kwargs ih =>
      rw [confAfter_append_singleton]
      unfold urlMissingBranch mergeConf
      by_cases ht : truthy (kwargs "url")
      · simp [ht]
      · simp only [if_neg ht]
        unfold urlMissingBranch at ih
        exact ih

/-- Claim C7: for every reference string containing no question mark,
`couple` issues exactly one read to the secret store, at that path, and
returns the entire structure returned by the store (not just its `data`
field) as the resolved value.  The store returns either a structure
(truthy dict) or nothing (`None`) for a path. -/
theorem couple_no_key_returns_full_structure (read : String → PyVal)
    (u : Bool) (p : String) (hp : '?' ∉ p.toList)
    (hv : truthy (read p) = true ∨ read p = PyVal.none) :
    couple (.str p) read u = (.ok (read p), [p]) := by
  rw [couple_str_of_split_none read u p p (pySplitRef_noQ p hp)]
  rcases hv with hv | hv
  · simp [hv]
  · rw [hv]
    simp

/-- Check of claim C7 at a concrete store and reference. -/
theorem couple_no_key_returns_full_structure_check :
    couple (.str "secret/app")
        (fun path =>
          if path = "secret/app"
          then PyVal.dict [("data", PyVal.dict [("cert", PyVal.str "v")])]
          else PyVal.none) true
      = (.ok (PyVal.dict [("data", PyVal.dict [("cert", PyVal.str "v")])]),
         ["secret/app"]) :=
  couple_no_key_returns_full_structure _ true "secret/app" (by decide)
    (Or.inl rfl)

/-- Claim C10: a reference string that ends in a question mark (an empty
key after the separator) is resolved by `couple` exactly as if it
contained no question mark: the full structure returned by the store at
the part before the separator is used as the value, with no key
extraction and no base64 decoding. -/
theorem couple_empty_key_like_no_key (read : String → PyVal) (u : Bool)
    (p : String) (hp : '?' ∉ p.toList) :
    couple (.str (p ++ "?")) read u = couple (.str p) read u := by
  rw [couple_str_of_split_emptyKey read u _ p (pySplitRef_emptyKey p hp),
      couple_str_of_split_none read u p p (pySplitRef_noQ p hp)]

/-- Check of claim C10 at a concrete store and reference. -/
theorem couple_empty_key_like_no_key_check :
    couple (.str "secret/app?")
        (fun path =>
          if path = "secret/app"
          then PyVal.dict [("data", PyVal.dict [("cert", PyVal.str "v")])]
          else PyVal.none) false
      = couple (.str "secret/app")
          (fun path =>
            if path = "secret/app"
            then PyVal.dict [("data", PyVal.dict [("cert", PyVal.str "v")])]
            else PyVal.none) false :=
  couple_empty_key_like_no_key _ false "secret/app" (by decide)

/-- Claim C1 is contradicted by the code: `couple` resolves a reference
whose key is absent from the secret data to `None` under both policies,
and `ext_pillar` then only assigns `vault_pillar[variable]` when the
returned data is truthy, so the variable is omitted from the fragment
even when `unset_if_missing` is disabled (the module documentation
promises the pillar key is set to `None` in that case). -/
theorem ext_pillar_omits_variable_even_when_policy_disabled :
    pillarFragment [("v", .str "p?k")] sampleStore false = .ok []
    ∧ pillarFragment [("v", .str "p?k")] sampleStore true = .ok []
    ∧ (couple (.str "p?k") sampleStore false).1 = .ok PyVal.none :=
  ⟨rfl, rfl, rfl⟩

/-- Claim C2 is contradicted by the code: in the nested-mapping branch
of `couple` every entry key is assigned unconditionally, so an entry
whose resolved value is missing stays in the result mapping with value
`None` even when `unset_if_missing` requests omission; it is never
dropped. -/
theorem couple_nested_keeps_key_with_none :
    (couple (.dict [("a", .str "p?k")]) sampleStore true).1
        = .ok (.dict [("a", PyVal.none)])
    ∧ (couple (.dict [("a", .str "p?k")]) sampleStore false).1
        = .ok (.dict [("a", PyVal.none)]) :=
  ⟨rfl, rfl⟩

/-- Claim C3 is contradicted by the code: when the secret-store read
returns nothing (`None`) for the path and the reference is
key-qualified, `couple` subscripts `None` with the string `data` and a
`TypeError` escapes, under either policy, instead of the missing secret
being treated as an empty value. -/
theorem couple_missing_secret_with_key_raises :
    couple (.str "secret/absent?k") (fun _ => PyVal.none) false
        = (.error "TypeError: object is not subscriptable", ["secret/absent"])
    ∧ couple (.str "secret/absent?k") (fun _ => PyVal.none) true
        = (.error "TypeError: object is not subscriptable", ["secret/absent"]) :=
  ⟨rfl, rfl⟩

/-- Claim C6: for a reference string of the form path-question-mark-key
with a non-empty key, `couple` splits on the first question mark, issues
one read at the path, and returns exactly the value of the key within
the `data` field of the returned structure (first conjunct, for a
string value that is non-empty or with the omission policy disabled and
does not carry the base64 marker); when the value is a string starting
with `base64:`, the remainder is base64-decoded and trailing whitespace
stripped, so the value `base64:QQ==` resolves to `A` (second
conjunct). -/
theorem couple_key_extraction :
    (∀ (read : String → PyVal) (u : Bool) (p k : String)
        (entries d : List (String × PyVal)) (s : String),
        '?' ∉ p.toList → k ≠ "" →
        read p = .dict entries →
        dictGet entries "data" = Option.some (.dict d) →
        dictGet d k = Option.some (.str s) →
        pyStartswith s "base64:" = false →
        (s ≠ "" ∨ u = false) →
        couple (.str (p ++ "?" ++ k)) read u = (.ok (.str s), [p]))
    ∧ (∀ (read : String → PyVal) (u : Bool) (p k : String)
        (entries d : List (String × PyVal)),
        '?' ∉ p.toList → k ≠ "" →
        read p = .dict entries →
        dictGet entries "data" = Option.some (.dict d) →
        dictGet d k = Option.some (.str "base64:QQ==") →
        couple (.str (p ++ "?" ++ k)) read u = (.ok (.str "A"), [p])) := by
  constructor
  · intro read u p k entries d s hp hk hread hdata hv hs hor
    have hsplit := pySplitRef_append p k hp
    rcases hor with hne | hu
    · simp [couple, hsplit, hread, pySubscript, hdata, pyGetDefaultNone,
        hv, hk, truthy, hne, hs]
    · subst hu
      by_cases hse : s = ""
      · subst hse
        simp [couple, hsplit, hread, pySubscript, hdata, pyGetDefaultNone,
          hv, hk, truthy]
      · simp [couple, hsplit, hread, pySubscript, hdata, pyGetDefaultNone,
          hv, hk, truthy, hse, hs]
  · intro read u p k entries d hp hk hread hdata hv
    have hsplit := pySplitRef_append p k hp
    simp only [couple, hsplit, hread, pySubscript, hdata, pyGetDefaultNone,
      hv, ne_eq, hk, not_false_eq_true, if_true, ite_not, if_false]
    rfl

/-- Check of claim C6 at a concrete store, for both the plain-string and
the base64-encoded cases. -/
theorem couple_key_extraction_check :
    couple (.str ("secret/app" ++ "?" ++ "cert"))
        (fun path =>
          if path = "secret/app"
          then PyVal.dict [("data", PyVal.dict [("cert", PyVal.str "v")])]
          else PyVal.none) false
      = (.ok (PyVal.str "v"), ["secret/app"])
    ∧ couple (.str ("secret/app" ++ "?" ++ "cert"))
        (fun path =>
          if path = "secret/app"
          then PyVal.dict [("data", PyVal.dict [("cert", PyVal.str "base64:QQ==")])]
          else PyVal.none) true
      = (.ok (PyVal.str "A"), ["secret/app"]) :=
  ⟨couple_key_extraction.1 _ false "secret/app" "cert"
      [("data", PyVal.dict [("cert", PyVal.str "v")])]
      [("cert", PyVal.str "v")] "v"
      (by decide) (by decide) rfl rfl rfl (by decide) (Or.inl (by decide)),
    couple_key_extraction.2 _ true "secret/app" "cert"
      [("data", PyVal.dict [("cert", PyVal.str "base64:QQ==")])]
      [("cert", PyVal.str "base64:QQ==")]
      (by decide) (by decide) rfl rfl rfl⟩

/-- Claim C8: authentication selects exactly one credential strategy in
fixed priority order, first match wins: a configured static token is
attached directly; otherwise a configured role id triggers AppRole
authentication with the configured secret id, or the secret id read from
the configured file, or from the fixed default path; otherwise a
configured app id triggers app-id authentication with the configured
user id, or the user id read from the configured file, or from the fixed
default path; otherwise a non-empty `VAULT_TOKEN` environment variable
is attached as the token; otherwise no token is attached. -/
theorem authenticate_priority (c : Conf) (fs : String → Option String)
    (env : String → Option String) :
    (truthy c.token = true → authenticate c fs env = .setToken c.token)
    ∧ (truthy c.token = false → truthy c.role_id = true →
        (truthy c.secret_id = true →
          authenticate c fs env = .approle c.role_id c.secret_id)
        ∧ (truthy c.secret_id = false → truthy c.secret_file = true →
            authenticate c fs env =
              .approle c.role_id
                (.str (getIdFromFile fs (asPathString c.secret_file))))
        ∧ (truthy c.secret_id = false → truthy c.secret_file = false →
            authenticate c fs env =
              .approle c.role_id (.str (getIdFromFile fs "/.vault-id"))))
    ∧ (truthy c.token = false → truthy c.role_id = false →
        truthy c.app_id = true →
        (truthy c.user_id = true →
          authenticate c fs env = .appId c.app_id c.user_id)
        ∧ (truthy c.user_id = false → truthy c.user_file = true →
            authenticate c fs env =
              .appId c.app_id
                (.str (getIdFromFile fs (asPathString c.user_file))))
        ∧ (truthy c.user_id = false → truthy c.user_file = false →
            authenticate c fs env =
              .appId c.app_id (.str (getIdFromFile fs "/.vault-id"))))
    ∧ (truthy c.token = false → truthy c.role_id = false →
        truthy c.app_id = false →
        (∀ t, env "VAULT_TOKEN" = Option.some t → t ≠ "" →
          authenticate c fs env = .envToken t)
        ∧ ((env "VAULT_TOKEN" = Option.none ∨ env "VAULT_TOKEN" = Option.some "") →
            authenticate c fs env = .nothing)) := by
  refine ⟨?_, ?_, ?_, ?_⟩
  · intro ht
    simp [authenticate, ht]
  · intro ht hr
    refine ⟨?_, ?_, ?_⟩
    · intro hs
      simp [authenticate, ht, hr, hs]
    · intro hs hf
      simp [authenticate, ht, hr, hs, hf]
    · intro hs hf
      simp [authenticate, ht, hr, hs, hf, getIdFromFile]
  · intro ht hr ha
    refine ⟨?_, ?_, ?_⟩
    · intro hu
      simp [authenticate, ht, hr, ha, hu]
    · intro hu hf
      simp [authenticate, ht, hr, ha, hu, hf]
    · intro hu hf
      simp [authenticate, ht, hr, ha, hu, hf, getIdFromFile]
  · intro ht hr ha
    constructor
    · intro t henv hne
      simp [authenticate, ht, hr, ha, henv, hne]
    · intro henv
      rcases henv with henv | henv <;> simp [authenticate, ht, hr, ha, henv]

/-- Check of claim C8 at concrete configurations: the static token wins
over a configured role id, and a configured role id without a secret id
or secret file falls back to the default secret-id path. -/
theorem authenticate_priority_check :
    authenticate
        { defaultConf with token := PyVal.str "tok", role_id := PyVal.str "r" }
        (fun _ => Option.none) (fun _ => Option.none)
      = .setToken (PyVal.str "tok")
    ∧ authenticate { defaultConf with role_id := PyVal.str "r" }
        (fun path => if path = "/.vault-id" then Option.some "uuid\n" else Option.none)
        (fun _ => Option.none)
      = .approle (PyVal.str "r") (PyVal.str "uuid") :=
  ⟨(authenticate_priority _ _ _).1 rfl,
    by
      have h := ((authenticate_priority
        { defaultConf with role_id := PyVal.str "r" }
        (fun path => if path = "/.vault-id" then Option.some "uuid\n" else Option.none)
        (fun _ => Option.none)).2.1 rfl rfl).2.2 rfl rfl
      simpa [getIdFromFile, pyRstrip, isPyWs] using h⟩

end SaltPillarVault
